import Mathlib

/-!
# Exostream daemon control plane: verification of spec claims

A shallow embedding of the exostream daemon's control plane
(`exostream/daemon/service.py`, `state_manager.py`, `main.py`,
`ipc_server.py`, `settings_manager.py`, `common/config.py`,
`common/discovery.py`) together with proofs settling the claims of the
specification.

Python dictionaries are modelled as insertion-ordered association lists;
the persisted JSON document is modelled by the inductive `JVal`; Python
exceptions become `Except`-style results carrying the exception kind and
its message string; the external encoder subprocess and the device probe
are oracles passed in as explicit parameters (the code treats them as
opaque collaborators).  Wall-clock instants are integers (the code only
stores and compares them).
-/

namespace Exostream

/-! ## JSON values (Python dict/list/str/int/bool/None) -/

inductive JVal where
  | jnull : JVal
  | jbool (b : Bool) : JVal
  | jnum (n : Int) : JVal
  | jstr (s : String) : JVal
  | jarr (xs : List JVal) : JVal
  | jobj (fields : List (String × JVal)) : JVal
deriving Repr, Inhabited

/-- Association-list lookup (Python `d.get(k)` / `k in d`). -/
def lookupA {α : Type} (fs : List (String × α)) (k : String) : Option α :=
  match fs with
  | [] => none
  | (k', v) :: rest => if k' = k then some v else lookupA rest k

/-- Association-list update (Python `d[k] = v`): replace in place if the key
is present, append otherwise — mirroring insertion-order semantics. -/
def insertA {α : Type} (fs : List (String × α)) (k : String) (v : α) :
    List (String × α) :=
  match fs with
  | [] => [(k, v)]
  | (k', v') :: rest => if k' = k then (k, v) :: rest else (k', v') :: insertA rest k v

/-- Association-list removal (Python `del d[k]`). -/
def eraseA {α : Type} (fs : List (String × α)) (k : String) : List (String × α) :=
  match fs with
  | [] => []
  | (k', v') :: rest => if k' = k then rest else (k', v') :: eraseA rest k

def keysA {α : Type} (fs : List (String × α)) : List String := fs.map Prod.fst

def JVal.getField : JVal → String → Option JVal
  | .jobj fs, k => lookupA fs k
  | _, _ => none

def JVal.setField : JVal → String → JVal → JVal
  | .jobj fs, k, v => .jobj (insertA fs k v)
  | j, _, _ => j

def JVal.eraseField : JVal → String → JVal
  | .jobj fs, k => .jobj (eraseA fs k)
  | j, _ => j

/-- Python truthiness of a JSON value (`if x:`). -/
def JVal.truthy : JVal → Bool
  | .jnull => false
  | .jbool b => b
  | .jnum n => decide (n ≠ 0)
  | .jstr s => decide (s ≠ "")
  | .jarr [] => false
  | .jarr (_ :: _) => true
  | .jobj [] => false
  | .jobj (_ :: _) => true

/-- Python truthiness of `d.get(k)` where a missing key yields `None`. -/
def truthyOpt : Option JVal → Bool
  | none => false
  | some v => v.truthy

/-- A None-or-string field (Python `str | None` serialized to JSON). -/
def jOptStr : Option String → JVal
  | none => .jnull
  | some s => .jstr s

def asStr : Option JVal → Option String
  | some (.jstr s) => some s
  | _ => none

def asInt : Option JVal → Option Int
  | some (.jnum n) => some n
  | _ => none

def asBool : Option JVal → Option Bool
  | some (.jbool b) => some b
  | _ => none

/-! ## Configuration records (`common/config.py`)

`VideoConfig` and `from_resolution_string` are translated from
`exostream/common/config.py`.  `NDIConfig` and the NDI-carrying
`StreamConfig` variant are absent from the shipped sources (only the
legacy SRT variant of `config.py` is present); they are plain data
carriers reconstructed from their call sites and the spec's data model
(`stream_name`, `groups`). -/

structure VideoConfig where
  width : Int := 1920
  height : Int := 1080
  fps : Int := 30
  bitrate : Int := 4000
  keyframeInterval : Int := 60
deriving Repr, DecidableEq, Inhabited

def VideoConfig.resolution (v : VideoConfig) : String :=
  toString v.width ++ "x" ++ toString v.height

/-- Python `s.split('x')` over the character list: split on every
occurrence of the separator, keeping empty pieces. -/
def splitOnChar (c : Char) : List Char → List Char → List (List Char)
  | [], acc => [acc.reverse]
  | x :: rest, acc =>
    if x = c then acc.reverse :: splitOnChar c rest []
    else splitOnChar c rest (x :: acc)

def digitVal? (c : Char) : Option Nat :=
  if c = '0' then some 0
  else if c = '1' then some 1
  else if c = '2' then some 2
  else if c = '3' then some 3
  else if c = '4' then some 4
  else if c = '5' then some 5
  else if c = '6' then some 6
  else if c = '7' then some 7
  else if c = '8' then some 8
  else if c = '9' then some 9
  else none

def digitsVal? : List Char → Option Nat → Option Nat
  | [], acc => acc
  | c :: rest, acc =>
    match digitVal? c, acc with
    | some d, some n => digitsVal? rest (some (n * 10 + d))
    | some d, none => digitsVal? rest (some d)
    | none, _ => none

/-- Python `int(s)`: an optional sign followed by at least one digit.
(Python also strips whitespace and accepts underscore separators; those
inputs play no role in any claim.) -/
def pyInt? (cs : List Char) : Option Int :=
  match cs with
  | '-' :: rest => (digitsVal? rest none).map (fun n => -(n : Int))
  | '+' :: rest => (digitsVal? rest none).map (fun n => (n : Int))
  | _ => (digitsVal? cs none).map (fun n => (n : Int))

/-- Python `map(int, resolution.split('x'))` with a two-element unpack:
succeeds exactly when splitting on `'x'` yields two integer literals. -/
def parseResolution (s : String) : Option (Int × Int) :=
  match (splitOnChar 'x' s.data []).map pyInt? with
  | [some w, some h] => some (w, h)
  | _ => none

/-- Embeds `VideoConfig.from_resolution_string(resolution, fps=fps)`:
parse `WxH` and build the config.  Note: no range validation is
performed here — any integers, including negative or huge ones, and any
`fps` are accepted. -/
def VideoConfig.fromResolutionString (resolution : String) (fps : Int) :
    Option VideoConfig :=
  (parseResolution resolution).map fun wh =>
    { width := wh.1, height := wh.2, fps := fps }

/-- Modelled from the spec: `NDIConfig` is missing from the shipped
`common/config.py` (only the legacy SRT variant is present); fields are
taken from its call sites (`NDIConfig(stream_name=name, groups=groups)`)
and the spec's `StreamParams`. -/
structure NDIConfig where
  streamName : String
  groups : Option String := none
deriving Repr, DecidableEq, Inhabited

/-- Modelled from the spec: the NDI-carrying `StreamConfig` variant is
missing from the shipped `common/config.py`; fields are taken from its
call sites (`StreamConfig(video=…, ndi=…, device=…)`). -/
structure StreamConfig where
  video : VideoConfig
  ndi : NDIConfig
  device : String := "/dev/video0"
deriving Repr, DecidableEq, Inhabited

/-! ## State store (`daemon/state_manager.py`)

The persisted document `self._state` is a `JVal`; every operation below
is the body of the corresponding `StateManager` method (the `_save`
calls write the same document to disk and are identity on the in-memory
state modelled here). -/

/-- Embeds `StateManager._default_state`. -/
def defaultState : JVal :=
  .jobj [
    ("version", .jstr "0.3.0"),
    ("daemon", .jobj [("started_at", .jnull), ("pid", .jnull)]),
    ("streams", .jobj []),
    ("last_config", .jobj [
      ("device", .jstr "/dev/video0"),
      ("resolution", .jstr "1920x1080"),
      ("fps", .jnum 30),
      ("raw_input", .jbool false)])]

/-- What the state file looks like to `_load`: absent, or some byte
content handed to `json.load`. -/
inductive StateFile where
  | missing : StateFile
  | content (s : String) : StateFile
deriving Repr, DecidableEq

/-- Embeds `StateManager._load`, abstracting `json.load` as a `parse` function
(`none` models a `JSONDecodeError` or any other read failure, both of
which the method catches): a missing file or a failed parse yields the
fresh default document; the function is total, so loading never raises. -/
def loadState (parse : String → Option JVal) : StateFile → JVal
  | .missing => defaultState
  | .content s =>
    match parse s with
    | some j => j
    | none => defaultState

/-- The per-stream snapshot written by `set_streaming_active`. -/
def streamSnapshotJson (config : StreamConfig) (raw : Bool) (now pid : Int) : JVal :=
  .jobj [
    ("active", .jbool true),
    ("stream_name", .jstr config.ndi.streamName),
    ("device", .jstr config.device),
    ("resolution", .jstr config.video.resolution),
    ("fps", .jnum config.video.fps),
    ("raw_input", .jbool raw),
    ("groups", jOptStr config.ndi.groups),
    ("started_at", .jnum now),
    ("ffmpeg_pid", .jnum pid)]

/-- The `last_config` record written by `set_streaming_active`. -/
def lastConfigJson (config : StreamConfig) (raw : Bool) : JVal :=
  .jobj [
    ("device", .jstr config.device),
    ("resolution", .jstr config.video.resolution),
    ("fps", .jnum config.video.fps),
    ("raw_input", .jbool raw)]

/-- Embeds `StateManager.set_streaming_active(config, ffmpeg_pid, raw_input)`:
write the snapshot under `streams[config.device]` and overwrite
`last_config`.  (`datetime.now().isoformat()` becomes the integer clock
`now`.) -/
def setStreamingActive (st : JVal) (config : StreamConfig) (ffmpegPid : Int)
    (raw : Bool) (now : Int) : JVal :=
  let streams := (st.getField "streams").getD (.jobj [])
  let st1 := st.setField "streams"
    (streams.setField config.device (streamSnapshotJson config raw now ffmpegPid))
  st1.setField "last_config" (lastConfigJson config raw)

/-- Embeds `StateManager.set_streaming_inactive(device)`: delete one stream's
snapshot (if present), or clear the whole `streams` map when `device` is
absent. -/
def setStreamingInactive (st : JVal) : Option String → JVal
  | some d =>
    let streams := (st.getField "streams").getD (.jobj [])
    if (streams.getField d).isSome then
      st.setField "streams" (streams.eraseField d)
    else st
  | none => st.setField "streams" (.jobj [])

/-- Embeds `StateManager.get_streaming_info(device)`: one snapshot (empty dict
when absent), or `{"streams": …}` when no device is given. -/
def getStreamingInfo (st : JVal) : Option String → JVal
  | some d => (((st.getField "streams").getD (.jobj [])).getField d).getD (.jobj [])
  | none => .jobj [("streams", (st.getField "streams").getD (.jobj []))]

/-- Embeds `StateManager.get_last_config()`. -/
def getLastConfig (st : JVal) : JVal :=
  (st.getField "last_config").getD (.jobj [])

/-- Embeds `StateManager.get_all_streams()`. -/
def getAllStreams (st : JVal) : List (String × JVal) :=
  match (st.getField "streams").getD (.jobj []) with
  | .jobj fs => fs
  | _ => []

/-- Embeds `StateManager.get_streaming_uptime_seconds(device)` with the integer
clock: `None` when the device has no snapshot or no `started_at`. -/
def getStreamingUptimeSeconds (st : JVal) (device : String) (now : Int) :
    Option Int :=
  match ((st.getField "streams").getD (.jobj [])).getField device with
  | none => none
  | some snap =>
    match asInt (snap.getField "started_at") with
    | none => none
    | some t0 => some (now - t0)

def jOptNum : Option Int → JVal
  | none => .jnull
  | some n => .jnum n

/-! ## Stream supervisor (`daemon/service.py`)

The in-memory stream table `self._streams` is an insertion-ordered
association list keyed by device path; the `StateManager` document rides
along in the same state record.  The encoder subprocess is an oracle:
`enc : Option Int` is the outcome of the ≈200 ms grace-window liveness
check in `start_streaming` (`some pid` = child alive with that pid,
`none` = `encoder.process is None or poll() is not None`), and
`stopBeh : String → Option String` is the outcome of `encoder.stop()`
per device (`some msg` = it raised with that message). -/

/-- Embeds `StreamState` (`service.py`). -/
inductive StreamState where
  | stopped | starting | running | stopping | error
deriving Repr, DecidableEq, Inhabited

def StreamState.toStr : StreamState → String
  | .stopped => "stopped"
  | .starting => "starting"
  | .running => "running"
  | .stopping => "stopping"
  | .error => "error"

/-- The exception taxonomy of `service.py`: `StreamAlreadyRunningError`,
`StreamNotRunningError`, `DeviceNotFoundError` all subclass
`StreamingError`; `streaming` stands for a bare `StreamingError`. -/
inductive StreamErr where
  | alreadyRunning (m : String)
  | notRunning (m : String)
  | deviceNotFound (m : String)
  | streaming (m : String)
deriving Repr, DecidableEq, Inhabited

/-- Python `str(e)`. -/
def StreamErr.msg : StreamErr → String
  | .alreadyRunning m => m
  | .notRunning m => m
  | .deviceNotFound m => m
  | .streaming m => m

/-- One row of the stream table (`self._streams[device]`): the encoder
object and worker thread collapse to the recorded child pid. -/
structure StreamEntry where
  config : StreamConfig
  rawInput : Bool
  state : StreamState
  errors : List String
  pid : Option Int
deriving Repr, Inhabited

/-- The supervisor's state: stream table plus the state store document. -/
structure ServiceState where
  streams : List (String × StreamEntry)
  doc : JVal
deriving Repr, Inhabited

def initialService : ServiceState := { streams := [], doc := defaultState }

/-- In-place state change of one row (`self._streams[device]["state"] = …`,
no-op when the row is absent). -/
def setEntryState (s : ServiceState) (device : String) (st : StreamState) :
    ServiceState :=
  { s with streams := s.streams.map fun kv =>
      if kv.1 = device then (kv.1, { kv.2 with state := st }) else kv }

def startResultJson (name device resolution : String) (fps pid : Int) : JVal :=
  .jobj [
    ("status", .jstr "started"),
    ("stream_name", .jstr name),
    ("device", .jstr device),
    ("resolution", .jstr resolution),
    ("fps", .jnum fps),
    ("pid", .jnum pid)]

/-- Embeds `StreamingService.start_streaming`.  Checks in source order: device
already in the table, table at `MAX_STREAMS = 3`, empty probe, device not
probed, config construction (`VideoConfig.from_resolution_string` — the
only validation on this path), then the grace-window liveness check.  On
a dead child the transient `Starting` row is removed again by the
`except` cleanup before the error propagates, so the failure branches
leave the state unchanged; on success the row is `Running` and the
snapshot is persisted via `set_streaming_active`. -/
def startStreaming (s : ServiceState) (devices : List String) (enc : Option Int)
    (device name resolution : String) (fps : Int) (raw : Bool)
    (groups : Option String) (now : Int) :
    ServiceState × Except StreamErr JVal :=
  if (lookupA s.streams device).isSome then
    (s, .error (.alreadyRunning ("Device " ++ device ++ " is already streaming")))
  else if 3 ≤ s.streams.length then
    (s, .error (.alreadyRunning
      "Maximum number of streams (3) already running. Stop a stream before starting a new one."))
  else if devices.isEmpty then
    (s, .error (.deviceNotFound "No video devices found"))
  else if ¬ devices.contains device then
    (s, .error (.deviceNotFound ("Device " ++ device ++ " not found")))
  else
    match VideoConfig.fromResolutionString resolution fps with
    | none =>
      (s, .error (.streaming ("Invalid configuration: bad resolution " ++ resolution)))
    | some vc =>
      let config : StreamConfig :=
        { video := vc, ndi := { streamName := name, groups := groups }, device := device }
      match enc with
      | none => (s, .error (.streaming "FFmpeg failed to start"))
      | some pid =>
        let entry : StreamEntry :=
          { config := config, rawInput := raw, state := .running,
            errors := [], pid := some pid }
        ({ streams := insertA s.streams device entry,
           doc := setStreamingActive s.doc config pid raw now },
         .ok (startResultJson name device resolution fps pid))

/-- Embeds `StreamingService._stop_stream_device`: no-op when the row is absent;
when `encoder.stop()` raises, the row and the persisted snapshot stay and
the message is returned; otherwise the snapshot is cleared and the row
deleted. -/
def stopStreamDevice (s : ServiceState) (stopBeh : String → Option String)
    (device : String) : ServiceState × Option String :=
  match lookupA s.streams device with
  | none => (s, none)
  | some _ =>
    match stopBeh device with
    | some e => (s, some e)
    | none =>
      ({ streams := eraseA s.streams device,
         doc := setStreamingInactive s.doc (some device) }, none)

/-- The `for dev in devices_to_stop` loop of the stop-all branch:
failures are collected as device-prefixed message strings without aborting. -/
def stopAllLoop (s : ServiceState) (stopBeh : String → Option String) :
    List String → ServiceState × Nat × List String
  | [] => (s, 0, [])
  | d :: rest =>
    let r1 := stopStreamDevice s stopBeh d
    let r2 := stopAllLoop r1.1 stopBeh rest
    match r1.2 with
    | none => (r2.1, r2.2.1 + 1, r2.2.2)
    | some e => (r2.1, r2.2.1, (d ++ ": " ++ e) :: r2.2.2)

/-- Embeds `StreamingService.stop_streaming(device)`: per-device form marks the
row `Stopping`, runs the helper, and on failure marks it `Error` and
raises; the all-streams form walks every key, counting successes and
collecting errors. -/
def stopStreaming (s : ServiceState) (stopBeh : String → Option String) :
    Option String → ServiceState × Except StreamErr JVal
  | some device =>
    if (lookupA s.streams device).isNone then
      (s, .error (.notRunning ("No stream running on device " ++ device)))
    else
      let r := stopStreamDevice (setEntryState s device .stopping) stopBeh device
      match r.2 with
      | none => (r.1, .ok (.jobj [("status", .jstr "stopped"), ("device", .jstr device)]))
      | some e =>
        (setEntryState r.1 device .error,
         .error (.streaming ("Failed to stop streaming: " ++ e)))
  | none =>
    if s.streams.isEmpty then
      (s, .error (.notRunning "No streams are running"))
    else
      let r := stopAllLoop s stopBeh (keysA s.streams)
      let base := [("status", JVal.jstr "stopped"), ("count", JVal.jnum r.2.1)]
      (r.1, .ok (.jobj (if r.2.2.isEmpty then base
        else base ++ [("errors", .jarr (r.2.2.map JVal.jstr))])))

/-- The inline pre-validation of `restart_streaming` (note: unlike the
settings validator it has no `≤ 4096` dimension check): returns the
`ValueError` message, if any. -/
def restartPrevalidate (resolution : String) (fps : Int) : Option String :=
  if ¬ resolution.data.contains 'x' then
    some ("Invalid resolution format: " ++ resolution)
  else
    match parseResolution resolution with
    | none => some ("invalid resolution literal: " ++ resolution)
    | some wh =>
      if wh.1 < 1 ∨ wh.2 < 1 then some "Resolution dimensions must be positive"
      else if fps < 1 ∨ fps > 120 then some "FPS must be between 1 and 120"
      else none

/-- The `restart_info` attached to a successful restart result
(`downtime_seconds` is an elapsed wall-clock measurement, opaque here). -/
def restartInfoJson (device oldResolution : String) (oldFps : Int)
    (newResolution : String) (newFps : Int) : JVal :=
  .jobj [
    ("downtime_seconds", .jnull),
    ("old_settings", .jobj [
      ("device", .jstr device),
      ("resolution", .jstr oldResolution),
      ("fps", .jnum oldFps)]),
    ("new_settings", .jobj [
      ("device", .jstr device),
      ("resolution", .jstr newResolution),
      ("fps", .jnum newFps)])]

/-- Optional overrides accepted by `restart_streaming` (a `none` field
inherits the live value, per the `x if x is not None else old_x` merges). -/
structure RestartArgs where
  device : String
  name : Option String := none
  resolution : Option String := none
  fps : Option Int := none
  rawInput : Option Bool := none
  groups : Option String := none

/-- Embeds `StreamingService.restart_streaming`: snapshot the live config,
merge, pre-validate, stop (errors swallowed), start with the new config
(`encNew` is the grace-check oracle of that start), and on failure
attempt one rollback start with the old config (`encOld`).

The rollback branch reproduces the code faithfully, including its slip:
the success-path `raise StreamingError("Restart failed, rolled back to
previous settings. Error: …")` sits inside the `try` whose
`except Exception as rollback_error` clause catches it, so the caller
receives the composite "restart failed and rollback failed" message even
when the rollback start succeeded (the code's own log line says
"Successfully rolled back" just before). -/
def restartStreaming (s : ServiceState) (devices : List String)
    (stopBeh : String → Option String) (encNew encOld : Option Int)
    (args : RestartArgs) (now : Int) : ServiceState × Except StreamErr JVal :=
  match lookupA s.streams args.device with
  | none =>
    (s, .error (.notRunning ("Cannot restart - device " ++ args.device ++
      " is not streaming. Use start_streaming instead.")))
  | some entry =>
    let oldName := entry.config.ndi.streamName
    let oldResolution := entry.config.video.resolution
    let oldFps := entry.config.video.fps
    let oldGroups := entry.config.ndi.groups
    let oldRaw := entry.rawInput
    let newName := args.name.getD oldName
    let newResolution := args.resolution.getD oldResolution
    let newFps := args.fps.getD oldFps
    let newRaw := args.rawInput.getD oldRaw
    let newGroups := match args.groups with
      | some g => some g
      | none => oldGroups
    match restartPrevalidate newResolution newFps with
    | some m => (s, .error (.streaming ("Invalid settings: " ++ m)))
    | none =>
      let stopped := stopStreamDevice s stopBeh args.device
      let afterNew := startStreaming stopped.1 devices encNew args.device
        newName newResolution newFps newRaw newGroups now
      match afterNew.2 with
      | .ok res =>
        (afterNew.1, .ok (res.setField "restart_info"
          (restartInfoJson args.device oldResolution oldFps newResolution newFps)))
      | .error e =>
        let afterOld := startStreaming afterNew.1 devices encOld args.device
          oldName oldResolution oldFps oldRaw oldGroups now
        match afterOld.2 with
        | .ok _ =>
          (afterOld.1, .error (.streaming
            ("Restart failed and rollback failed. Manual intervention required. Original error: "
              ++ e.msg ++ ", Rollback error: "
              ++ "Restart failed, rolled back to previous settings. Error: " ++ e.msg)))
        | .error re =>
          (afterOld.1, .error (.streaming
            ("Restart failed and rollback failed. Manual intervention required. Original error: "
              ++ e.msg ++ ", Rollback error: " ++ re.msg)))

/-- Python `errors[-10:]`. -/
def lastTen (xs : List String) : List String := xs.drop (xs.length - 10)

/-- Embeds `StreamingService.get_status`: per-device view, with the exact
two-field `{"streaming": False, "device": device}` answer for an absent
row, or the aggregate view built from the persisted streams map. -/
def getStatus (s : ServiceState) (now : Int) : Option String → JVal
  | some device =>
    match lookupA s.streams device with
    | none => .jobj [("streaming", .jbool false), ("device", .jstr device)]
    | some entry =>
      let streamInfo := getStreamingInfo s.doc (some device)
      let base := [
        ("streaming", JVal.jbool true),
        ("device", JVal.jstr device),
        ("state", JVal.jstr entry.state.toStr),
        ("stream_name", JVal.jstr entry.config.ndi.streamName),
        ("resolution", JVal.jstr entry.config.video.resolution),
        ("fps", JVal.jnum entry.config.video.fps),
        ("groups", jOptStr entry.config.ndi.groups),
        ("uptime_seconds", jOptNum (getStreamingUptimeSeconds s.doc device now)),
        ("pid", (streamInfo.getField "ffmpeg_pid").getD .jnull)]
      .jobj (if entry.errors.isEmpty then base
        else base ++ [("errors", .jarr ((lastTen entry.errors).map JVal.jstr))])
  | none =>
    let infos := getAllStreams s.doc
    let streamsStatus := infos.map fun kv =>
      let entryOpt := lookupA s.streams kv.1
      let st := (entryOpt.map (·.state)).getD .stopped
      let errors := (entryOpt.map (·.errors)).getD []
      let base := [
        ("device", JVal.jstr kv.1),
        ("streaming", JVal.jbool true),
        ("state", JVal.jstr st.toStr),
        ("stream_name", (kv.2.getField "stream_name").getD .jnull),
        ("resolution", (kv.2.getField "resolution").getD .jnull),
        ("fps", (kv.2.getField "fps").getD .jnull),
        ("groups", (kv.2.getField "groups").getD .jnull),
        ("uptime_seconds", jOptNum (getStreamingUptimeSeconds s.doc kv.1 now)),
        ("pid", (kv.2.getField "ffmpeg_pid").getD .jnull)]
      JVal.jobj (if errors.isEmpty then base
        else base ++ [("errors", .jarr ((lastTen errors).map JVal.jstr))])
    .jobj [
      ("streaming", .jbool (!streamsStatus.isEmpty)),
      ("stream_count", .jnum streamsStatus.length),
      ("max_streams", .jnum 3),
      ("streams", .jarr streamsStatus)]

/-- Embeds `StreamingService.is_streaming`. -/
def isStreaming (s : ServiceState) : Option String → Bool
  | some device =>
    (lookupA s.streams device).map (·.state) = some StreamState.running
  | none => !s.streams.isEmpty

/-! ## Settings manager (`daemon/settings_manager.py`) -/

/-- Embeds `SettingsInfo` (`common/protocol.py`). -/
structure SettingsRec where
  device : String
  name : Option String
  resolution : String
  fps : Int
  rawInput : Bool
  groups : Option String
  streaming : Bool
deriving Repr, DecidableEq, Inhabited

def SettingsRec.toJson (r : SettingsRec) : JVal :=
  .jobj [
    ("device", .jstr r.device),
    ("name", jOptStr r.name),
    ("resolution", .jstr r.resolution),
    ("fps", .jnum r.fps),
    ("raw_input", .jbool r.rawInput),
    ("groups", jOptStr r.groups),
    ("streaming", .jbool r.streaming)]

/-- Embeds `SettingsManager.get_current_settings`: branches on
`streaming_info.get('active')` where `streaming_info` is
`state_manager.get_streaming_info()` *without* a device — which returns
`{"streams": …}`, a dict that never has an `active` key, so the
streaming branch is in fact unreachable and the last-config branch
always answers. -/
def getCurrentSettings (doc : JVal) : SettingsRec :=
  let info := getStreamingInfo doc none
  let lc := getLastConfig doc
  if truthyOpt (info.getField "active") then
    { device := (asStr (info.getField "device")).getD "/dev/video0",
      name := asStr (info.getField "stream_name"),
      resolution := (asStr (info.getField "resolution")).getD "1920x1080",
      fps := (asInt (info.getField "fps")).getD 30,
      rawInput := (asBool (info.getField "raw_input")).getD false,
      groups := asStr (info.getField "groups"),
      streaming := true }
  else
    { device := (asStr (lc.getField "device")).getD "/dev/video0",
      name := none,
      resolution := (asStr (lc.getField "resolution")).getD "1920x1080",
      fps := (asInt (lc.getField "fps")).getD 30,
      rawInput := (asBool (lc.getField "raw_input")).getD false,
      groups := none,
      streaming := false }

/-- Embeds `UpdateSettingsParams` (`common/protocol.py`); `restart_if_streaming`
defaults to `True`. -/
structure UpdateSettingsParams where
  device : Option String := none
  name : Option String := none
  resolution : Option String := none
  fps : Option Int := none
  rawInput : Option Bool := none
  groups : Option String := none
  restartIfStreaming : Bool := true
deriving Repr, Inhabited

/-- The resolution checks of `SettingsManager.validate_settings_update`
(note this validator, unlike the start path, does enforce positivity and
the 4096 cap). -/
def validateResolutionField (r : String) : Option String :=
  if ¬ r.data.contains 'x' then
    some ("Invalid resolution format: " ++ r)
  else
    match parseResolution r with
    | none => some ("Invalid resolution format: " ++ r)
    | some wh =>
      if wh.1 < 1 ∨ wh.2 < 1 then some "Resolution dimensions must be positive"
      else if wh.1 > 4096 ∨ wh.2 > 4096 then some "Resolution too large (max 4096x4096)"
      else none

/-- Embeds `SettingsManager.validate_settings_update`: returns the first error
message, or `none` when valid.  `if params.device:` and
`if params.resolution:` are Python truthiness tests, so empty strings
skip those checks. -/
def validateSettingsUpdate (devices : List String) (p : UpdateSettingsParams) :
    Option String :=
  let devErr : Option String :=
    match p.device with
    | some d =>
      if d ≠ "" ∧ ¬ devices.contains d then some ("Device " ++ d ++ " not found")
      else none
    | none => none
  let resErr : Option String :=
    match p.resolution with
    | some r => if r ≠ "" then validateResolutionField r else none
    | none => none
  let fpsErr : Option String :=
    match p.fps with
    | some f => if f < 1 ∨ f > 120 then some "FPS must be between 1 and 120" else none
    | none => none
  let nameErr : Option String :=
    match p.name with
    | some "" => some "Stream name cannot be empty"
    | _ => none
  (devErr.orElse fun _ => (resErr.orElse fun _ => (fpsErr.orElse fun _ => nameErr)))

/-- Embeds `SettingsManager.merge_settings`: update fields that are not `None`. -/
def mergeSettings (current : SettingsRec) (p : UpdateSettingsParams) : SettingsRec :=
  { device := p.device.getD current.device,
    name := match p.name with | some n => some n | none => current.name,
    resolution := p.resolution.getD current.resolution,
    fps := p.fps.getD current.fps,
    rawInput := p.rawInput.getD current.rawInput,
    groups := match p.groups with | some g => some g | none => current.groups,
    streaming := current.streaming }

/-! ## Daemon RPC handlers (`daemon/main.py`) and router (`daemon/ipc_server.py`)

Handlers raise Python exceptions; both routers (`IPCServerManager` and
`TCPServerManager._route_request`) catch *every* exception with a single
`except Exception` and answer `RPCError.INTERNAL_ERROR` with `str(e)`,
so a handler error is just its message string here. -/

/-- Python name-or-default fallback (falsy fallback: both
`None` and the empty string become `"exostream"`). -/
def nameOrDefault : Option String → String
  | none => "exostream"
  | some n => if n = "" then "exostream" else n

/-- Embeds `ExostreamDaemon._handle_stream_start`: parse params with defaults
(`StartStreamParams.from_dict` never raises), call the supervisor, and
re-wrap the domain exceptions as bare `StreamingError`s with prefixed
messages — erasing their type before the router sees them. -/
def handleStreamStart (s : ServiceState) (devices : List String) (enc : Option Int)
    (params : JVal) (now : Int) : ServiceState × Except String JVal :=
  let device := (asStr (params.getField "device")).getD "/dev/video0"
  let name := (asStr (params.getField "name")).getD "exostream"
  let resolution := (asStr (params.getField "resolution")).getD "1920x1080"
  let fps := (asInt (params.getField "fps")).getD 30
  let raw := (asBool (params.getField "raw_input")).getD false
  let groups := asStr (params.getField "groups")
  let r := startStreaming s devices enc device name resolution fps raw groups now
  match r.2 with
  | .ok res => (r.1, .ok res)
  | .error (.alreadyRunning m) => (r.1, .error ("Stream already running: " ++ m))
  | .error (.deviceNotFound m) => (r.1, .error ("Device not found: " ++ m))
  | .error e => (r.1, .error ("Failed to start stream: " ++ e.msg))

/-- Embeds `ExostreamDaemon._handle_stream_stop`: the params dict is
deliberately unused ("currently unused" in the handler docstring) —
`stop_streaming()` is always invoked without a device, stopping every
active stream whatever the request carried. -/
def handleStreamStop (s : ServiceState) (stopBeh : String → Option String)
    (_params : JVal) : ServiceState × Except String JVal :=
  let r := stopStreaming s stopBeh none
  match r.2 with
  | .ok res => (r.1, .ok res)
  | .error (.notRunning m) => (r.1, .error ("Stream not running: " ++ m))
  | .error e => (r.1, .error ("Failed to stop stream: " ++ e.msg))

/-- Embeds `ExostreamDaemon._handle_settings_update`: validate, merge, and when
currently streaming with `restart_if_streaming`, stop **all** streams and
start one fresh stream with the merged settings.  There is no call to
`StreamingService.restart_streaming` and hence no rollback on this path;
any exception surfaces with the `Failed to update settings:` prefix
(validation failures surface doubly prefixed, exactly as the code
re-wraps its own `ValueError`). -/
def handleSettingsUpdate (s : ServiceState) (devices : List String)
    (stopBeh : String → Option String) (enc : Option Int)
    (p : UpdateSettingsParams) (now : Int) : ServiceState × Except String JVal :=
  match validateSettingsUpdate devices p with
  | some m => (s, .error ("Invalid settings: Invalid settings: " ++ m))
  | none =>
    let current := getCurrentSettings s.doc
    let merged := mergeSettings current p
    let was := isStreaming s none
    if was && p.restartIfStreaming then
      let stoppedR := stopStreaming s stopBeh none
      match stoppedR.2 with
      | .error e => (stoppedR.1, .error ("Failed to update settings: " ++ e.msg))
      | .ok _ =>
        let startedR := startStreaming stoppedR.1 devices enc merged.device
          (nameOrDefault merged.name) merged.resolution merged.fps
          merged.rawInput merged.groups now
        match startedR.2 with
        | .error e => (startedR.1, .error ("Failed to update settings: " ++ e.msg))
        | .ok info =>
          (startedR.1, .ok (.jobj [
            ("status", .jstr "updated_and_restarted"),
            ("settings", merged.toJson),
            ("stream_info", info)]))
    else if was then
      (s, .ok (.jobj [
        ("status", .jstr "saved_for_next_start"),
        ("settings", merged.toJson),
        ("message", .jstr "Settings will be applied when stream is restarted")]))
    else
      (s, .ok (.jobj [("status", .jstr "updated"), ("settings", merged.toJson)]))

structure RPCRequest where
  method : String
  params : JVal
  id : Option Int
deriving Repr, Inhabited

structure RPCErrorObj where
  code : Int
  message : String
deriving Repr, DecidableEq, Inhabited

/-- JSON-RPC response: exactly one of `result` / `error` is set by the
constructors below (`RPCResponse.success` / `create_error_response`);
the `data = {traceback}` payload of internal errors is not modelled. -/
structure RPCResponse where
  id : Option Int
  result : Option JVal
  error : Option RPCErrorObj
deriving Repr, Inhabited

/-- Embeds `IPCServerManager._route_request` (identical in
`TCPServerManager`): unknown method answers `METHOD_NOT_FOUND = -32601`;
a handler result answers success; *any* handler exception — the domain
errors included, since nothing dispatches on their type — answers
`INTERNAL_ERROR = -32603` with `str(e)`. -/
def routeRequest (handlers : String → Option (JVal → Except String JVal))
    (req : RPCRequest) : RPCResponse :=
  match handlers req.method with
  | none =>
    { id := req.id, result := none,
      error := some { code := -32601, message := "Method " ++ req.method ++ " not found" } }
  | some h =>
    match h req.params with
    | .ok r => { id := req.id, result := some r, error := none }
    | .error e =>
      { id := req.id, result := none, error := some { code := -32603, message := e } }

/-- The daemon's handler table restricted to `stream.start`, with the
supervisor state and the oracles closed over, exactly as
`_register_handlers` binds the bound method. -/
def startHandlers (s : ServiceState) (devices : List String) (enc : Option Int)
    (now : Int) : String → Option (JVal → Except String JVal) :=
  fun m =>
    if m = "stream.start" then
      some (fun p => (handleStreamStart s devices enc p now).2)
    else none

/-! ## Discovery listener (`common/discovery.py`) -/

def DISCOVERY_TIMEOUT : ℚ := 10

/-- Embeds `ExostreamServiceInfo`. -/
structure ExostreamServiceInfo where
  name : String
  hostname : String
  host : String
  port : Int
  version : String
  lastSeen : ℚ
deriving Repr, DecidableEq, Inhabited

/-- The upsert of the receive loop: key host-colon-port, fresh
`last_seen`; both the `added` and `updated` paths store the same record. -/
def upsertService (services : List (String × ExostreamServiceInfo))
    (name hostname host : String) (port : Int) (version : String) (now : ℚ) :
    List (String × ExostreamServiceInfo) :=
  insertA services (host ++ ":" ++ toString port)
    { name := name, hostname := hostname, host := host, port := port,
      version := version, lastSeen := now }

/-- One pass of `_cleanup_loop` at wall-clock `now`: first component the
surviving table, second the `(key, service)` pairs deleted in iteration
order — exactly those with `now - last_seen > DISCOVERY_TIMEOUT`; a
`removed` callback is emitted for each pair of the second component. -/
def cleanupPass (services : List (String × ExostreamServiceInfo)) (now : ℚ) :
    List (String × ExostreamServiceInfo) × List (String × ExostreamServiceInfo) :=
  match services with
  | [] => ([], [])
  | kv :: rest =>
    let r := cleanupPass rest now
    if now - kv.2.lastSeen > DISCOVERY_TIMEOUT then (r.1, kv :: r.2)
    else (kv :: r.1, r.2)

/-- Embeds `get_services`: the listed dictionaries carry exactly the fields of
`ExostreamServiceInfo`, so the records stand for them. -/
def getServices (services : List (String × ExostreamServiceInfo)) :
    List ExostreamServiceInfo :=
  services.map Prod.snd

/-! ## Supervisor operations as a transition system (for the invariant claims) -/

/-- One supervisor-level operation with its oracles (encoder liveness,
encoder stop behaviour, probed devices), as invoked by the RPC handlers. -/
inductive SOp where
  | startOp (devices : List String) (enc : Option Int) (device name resolution : String)
      (fps : Int) (raw : Bool) (groups : Option String) (now : Int)
  | stopOp (stopBeh : String → Option String) (device : Option String)
  | restartOp (devices : List String) (stopBeh : String → Option String)
      (encNew encOld : Option Int) (args : RestartArgs) (now : Int)
  | settingsOp (devices : List String) (stopBeh : String → Option String)
      (enc : Option Int) (p : UpdateSettingsParams) (now : Int)

def applyOp (s : ServiceState) : SOp → ServiceState
  | .startOp devices enc device name resolution fps raw groups now =>
    (startStreaming s devices enc device name resolution fps raw groups now).1
  | .stopOp stopBeh device => (stopStreaming s stopBeh device).1
  | .restartOp devices stopBeh encNew encOld args now =>
    (restartStreaming s devices stopBeh encNew encOld args now).1
  | .settingsOp devices stopBeh enc p now =>
    (handleSettingsUpdate s devices stopBeh enc p now).1

def runOps (init : ServiceState) (ops : List SOp) : ServiceState :=
  ops.foldl applyOp init

/-- The stream-table invariant: at most `MAX_STREAMS = 3` rows, unique
device-path keys. -/
def TableInv (s : ServiceState) : Prop :=
  s.streams.length ≤ 3 ∧ (keysA s.streams).Nodup

/-! ## Concrete fixtures used by the witnesses and counterexamples -/

def sampleVideo : VideoConfig := { width := 1920, height := 1080, fps := 30 }

def sampleConfig (d : String) : StreamConfig :=
  { video := sampleVideo, ndi := { streamName := "Cam", groups := none }, device := d }

def sampleEntry (d : String) : StreamEntry :=
  { config := sampleConfig d, rawInput := false, state := .running,
    errors := [], pid := some 100 }

/-- A table holding three running streams (the S3 scenario). -/
def fullState : ServiceState :=
  { streams := [
      ("/dev/video0", sampleEntry "/dev/video0"),
      ("/dev/video1", sampleEntry "/dev/video1"),
      ("/dev/video2", sampleEntry "/dev/video2")],
    doc := defaultState }

/-- The daemon state after one successful
`stream.start{device:/dev/video0, name:Cam, resolution:1920x1080, fps:30}`
from a fresh boot (the S5 set-up), obtained by running the embedded start. -/
def startedState : ServiceState :=
  (startStreaming initialService ["/dev/video0"] (some 100) "/dev/video0" "Cam"
    "1920x1080" 30 false none 1000).1

/-- A table holding two running streams. -/
def twoState : ServiceState :=
  { streams := [
      ("/dev/video0", sampleEntry "/dev/video0"),
      ("/dev/video1", sampleEntry "/dev/video1")],
    doc := defaultState }

/-- The fourth `stream.start` request of scenario S3. -/
def req4 : RPCRequest :=
  { method := "stream.start",
    params := .jobj [
      ("device", .jstr "/dev/video3"),
      ("name", .jstr "Cam4"),
      ("resolution", .jstr "1920x1080"),
      ("fps", .jnum 30)],
    id := some 1 }

/-! ## Association-list lemmas -/

theorem lookupA_eq_none_iff {α : Type} (fs : List (String × α)) (k : String) :
    lookupA fs k = none ↔ k ∉ keysA fs := by
  induction fs with
  | nil => simp [lookupA, keysA]
  | cons kv rest ih =>
    obtain ⟨k', v⟩ := kv
    by_cases h : k' = k
    · subst h
      simp [lookupA, keysA]
    · simp only [lookupA, if_neg h, keysA, List.map_cons, List.mem_cons, ih]
      constructor
      · intro hn hor
        rcases hor with he | hm
        · exact h he.symm
        · exact hn hm
      · intro hn hm
        exact hn (Or.inr hm)

theorem lookupA_isSome_of_mem_keys {α : Type} {fs : List (String × α)} {k : String}
    (h : k ∈ keysA fs) : (lookupA fs k).isSome = true := by
  rcases hl : lookupA fs k with _ | v
  · exact absurd ((lookupA_eq_none_iff fs k).mp hl) (fun hn => hn h)
  · rfl

theorem insertA_of_lookup_none {α : Type} {fs : List (String × α)} {k : String}
    (h : lookupA fs k = none) (v : α) : insertA fs k v = fs ++ [(k, v)] := by
  induction fs with
  | nil => rfl
  | cons kv rest ih =>
    obtain ⟨k', v'⟩ := kv
    by_cases hk : k' = k
    · subst hk; simp [lookupA] at h
    · simp only [lookupA, if_neg hk] at h
      simp [insertA, hk, ih h]

theorem lookupA_insertA_self {α : Type} (fs : List (String × α)) (k : String) (v : α) :
    lookupA (insertA fs k v) k = some v := by
  induction fs with
  | nil => simp [insertA, lookupA]
  | cons kv rest ih =>
    obtain ⟨k', v'⟩ := kv
    by_cases hk : k' = k
    · subst hk; simp [insertA, lookupA]
    · simp [insertA, lookupA, hk, ih]

theorem lookupA_insertA_ne {α : Type} (fs : List (String × α)) {k k' : String}
    (h : k' ≠ k) (v : α) : lookupA (insertA fs k v) k' = lookupA fs k' := by
  induction fs with
  | nil =>
    simp only [insertA, lookupA, if_neg (Ne.symm h)]
  | cons kv rest ih =>
    obtain ⟨k₀, v₀⟩ := kv
    by_cases hk : k₀ = k
    · subst hk
      simp only [insertA, if_pos rfl, lookupA, if_neg (Ne.symm h)]
    · simp only [insertA, if_neg hk, lookupA, ih]

theorem length_eraseA_le {α : Type} (fs : List (String × α)) (k : String) :
    (eraseA fs k).length ≤ fs.length := by
  induction fs with
  | nil => simp [eraseA]
  | cons kv rest ih =>
    obtain ⟨k', v'⟩ := kv
    by_cases hk : k' = k
    · simp only [eraseA, if_pos hk, List.length_cons]
      omega
    · simp only [eraseA, if_neg hk, List.length_cons]
      omega

theorem keysA_eraseA_sublist {α : Type} (fs : List (String × α)) (k : String) :
    List.Sublist (keysA (eraseA fs k)) (keysA fs) := by
  induction fs with
  | nil => simp [eraseA, keysA]
  | cons kv rest ih =>
    obtain ⟨k', v'⟩ := kv
    by_cases hk : k' = k
    · simp only [eraseA, if_pos hk, keysA, List.map_cons]
      exact List.sublist_cons_self _ _
    · simp only [eraseA, if_neg hk, keysA, List.map_cons]
      exact List.Sublist.cons₂ _ ih

theorem nodup_keys_eq {α : Type} {fs : List (String × α)} (h : (keysA fs).Nodup)
    {k : String} {a b : α} (ha : (k, a) ∈ fs) (hb : (k, b) ∈ fs) : a = b := by
  induction fs with
  | nil => cases ha
  | cons kv rest ih =>
    obtain ⟨k₀, v₀⟩ := kv
    simp only [keysA, List.map_cons, List.nodup_cons] at h
    rcases List.mem_cons.mp ha with ha0 | ha1
    · rcases List.mem_cons.mp hb with hb0 | hb1
      · injection ha0 with hk1 hv1
        injection hb0 with hk2 hv2
        rw [hv1, hv2]
      · exfalso
        injection ha0 with hk1 hv1
        apply h.1
        rw [← hk1]
        exact List.mem_map_of_mem Prod.fst hb1
    · rcases List.mem_cons.mp hb with hb0 | hb1
      · exfalso
        injection hb0 with hk2 hv2
        apply h.1
        rw [← hk2]
        exact List.mem_map_of_mem Prod.fst ha1
      · exact ih h.2 ha1 hb1

/-! ## `JVal` field lemmas -/

def JVal.isObjB : JVal → Bool
  | .jobj _ => true
  | _ => false

theorem getField_setField_self {st : JVal} (h : st.isObjB = true) (k : String) (v : JVal) :
    (st.setField k v).getField k = some v := by
  cases st <;> simp [JVal.isObjB] at h ⊢
  case jobj fs => simp [JVal.setField, JVal.getField, lookupA_insertA_self]

theorem getField_setField_ne (st : JVal) {k k' : String} (h : k' ≠ k) (v : JVal) :
    (st.setField k v).getField k' = st.getField k' := by
  cases st <;> simp [JVal.setField, JVal.getField]
  case jobj fs => exact lookupA_insertA_ne fs h v

theorem isObjB_setField {st : JVal} (h : st.isObjB = true) (k : String) (v : JVal) :
    (st.setField k v).isObjB = true := by
  cases st <;> simp [JVal.isObjB] at h ⊢
  case jobj fs => simp [JVal.setField, JVal.isObjB]

/-! ## Supervisor-state lemmas -/

theorem lookupA_mapEntry {α : Type} (l : List (String × α)) (d k : String) (f : α → α) :
    lookupA (l.map fun kv => if kv.1 = d then (kv.1, f kv.2) else kv) k =
      (lookupA l k).map (fun v => if k = d then f v else v) := by
  induction l with
  | nil => simp [lookupA]
  | cons kv rest ih =>
    obtain ⟨k₀, v₀⟩ := kv
    simp only [List.map_cons]
    by_cases h0 : k₀ = d
    · rw [if_pos (show (k₀, v₀).1 = d from h0)]
      subst h0
      by_cases hk : k₀ = k
      · subst hk
        simp [lookupA]
      · simp only [lookupA, if_neg hk, ih]
    · rw [if_neg (show ¬ (k₀, v₀).1 = d from h0)]
      by_cases hk : k₀ = k
      · subst hk
        simp [lookupA, h0]
      · simp only [lookupA, if_neg hk, ih]

theorem keysA_setEntryState (s : ServiceState) (device : String) (st : StreamState) :
    keysA (setEntryState s device st).streams = keysA s.streams := by
  simp only [setEntryState, keysA, List.map_map]
  apply List.map_congr_left
  intro kv _
  by_cases h : kv.1 = device
  · simp [h]
  · simp [h]

theorem length_setEntryState (s : ServiceState) (device : String) (st : StreamState) :
    (setEntryState s device st).streams.length = s.streams.length := by
  simp [setEntryState]

theorem lookupA_setEntryState (s : ServiceState) (device k : String) (st : StreamState) :
    lookupA (setEntryState s device st).streams k =
      (lookupA s.streams k).map
        (fun e => if k = device then { e with state := st } else e) := by
  simpa [setEntryState] using
    lookupA_mapEntry s.streams device k (fun e => { e with state := st })

/-- The supervisor's start either rejects with the state untouched, or —
only with the device fresh and room in the table — appends one row. -/
theorem startStreaming_cases (s : ServiceState) (devices : List String)
    (enc : Option Int) (device name resolution : String) (fps : Int) (raw : Bool)
    (groups : Option String) (now : Int) :
    (startStreaming s devices enc device name resolution fps raw groups now).1 = s ∨
    (lookupA s.streams device = none ∧ s.streams.length < 3 ∧
      ∃ en : StreamEntry,
        (startStreaming s devices enc device name resolution fps raw groups now).1.streams
          = insertA s.streams device en) := by
  simp only [startStreaming]
  split
  next h1 => left; rfl
  next h1 =>
    split
    next h2 => left; rfl
    next h2 =>
      split
      next h3 => left; rfl
      next h3 =>
        split
        next h4 => left; rfl
        next h4 =>
          split
          next hv => left; rfl
          next vc hv =>
            match enc with
            | none => left; rfl
            | some pid =>
              right
              have hlk : lookupA s.streams device = none := by
                rcases hx : lookupA s.streams device with _ | e
                · rfl
                · rw [hx] at h1; simp at h1
              exact ⟨hlk, by omega, ⟨_, rfl⟩⟩

/-- With a dead or missing child at the grace check (`enc = none`) the
start always fails and leaves the state untouched. -/
theorem startStreaming_encNone (s : ServiceState) (devices : List String)
    (device name resolution : String) (fps : Int) (raw : Bool)
    (groups : Option String) (now : Int) :
    ∃ e, startStreaming s devices none device name resolution fps raw groups now
      = (s, .error e) := by
  simp only [startStreaming]
  split
  · exact ⟨_, rfl⟩
  · split
    · exact ⟨_, rfl⟩
    · split
      · exact ⟨_, rfl⟩
      · split
        · exact ⟨_, rfl⟩
        · split
          · exact ⟨_, rfl⟩
          · exact ⟨_, rfl⟩

theorem stopStreamDevice_cases (s : ServiceState) (beh : String → Option String)
    (device : String) :
    (stopStreamDevice s beh device).1 = s ∨
    ((stopStreamDevice s beh device).1.streams = eraseA s.streams device ∧
     (stopStreamDevice s beh device).1.doc = setStreamingInactive s.doc (some device)) := by
  simp only [stopStreamDevice]
  split
  · left; rfl
  · split
    · left; rfl
    · right; exact ⟨rfl, rfl⟩

/-! ## Preservation of the stream-table invariant -/

theorem tableInv_insertA_new {s : ServiceState}
    (h : TableInv s) {device : String}
    (hl : lookupA s.streams device = none) (hlen : s.streams.length < 3)
    (en : StreamEntry) :
    (insertA s.streams device en).length ≤ 3 ∧
      (keysA (insertA s.streams device en)).Nodup := by
  rw [insertA_of_lookup_none hl]
  constructor
  · simp only [List.length_append, List.length_singleton]
    omega
  · simp only [keysA, List.map_append, List.map_singleton]
    rw [List.nodup_append]
    refine ⟨h.2, List.nodup_singleton _, ?_⟩
    intro x hx hx2
    simp only [List.mem_singleton] at hx2
    subst hx2
    exact (lookupA_eq_none_iff _ _).mp hl hx

theorem tableInv_startStreaming {s : ServiceState} (h : TableInv s)
    (devices : List String) (enc : Option Int) (device name resolution : String)
    (fps : Int) (raw : Bool) (groups : Option String) (now : Int) :
    TableInv (startStreaming s devices enc device name resolution fps raw groups now).1 := by
  rcases startStreaming_cases s devices enc device name resolution fps raw groups now with
    hc | ⟨hl, hlen, en, hs⟩
  · rw [hc]; exact h
  · constructor
    · rw [hs]; exact (tableInv_insertA_new h hl hlen en).1
    · rw [hs]; exact (tableInv_insertA_new h hl hlen en).2

theorem tableInv_eraseA {s : ServiceState} (h : TableInv s) (device : String) :
    (eraseA s.streams device).length ≤ 3 ∧ (keysA (eraseA s.streams device)).Nodup :=
  ⟨le_trans (length_eraseA_le s.streams device) h.1,
   List.Nodup.sublist (keysA_eraseA_sublist s.streams device) h.2⟩

theorem tableInv_stopStreamDevice {s : ServiceState} (h : TableInv s)
    (beh : String → Option String) (device : String) :
    TableInv (stopStreamDevice s beh device).1 := by
  rcases stopStreamDevice_cases s beh device with hc | ⟨hs, _⟩
  · rw [hc]; exact h
  · constructor
    · rw [hs]; exact (tableInv_eraseA h device).1
    · rw [hs]; exact (tableInv_eraseA h device).2

theorem tableInv_setEntryState {s : ServiceState} (h : TableInv s)
    (device : String) (st : StreamState) : TableInv (setEntryState s device st) := by
  constructor
  · rw [length_setEntryState]; exact h.1
  · rw [keysA_setEntryState]; exact h.2

theorem tableInv_stopAllLoop (beh : String → Option String) :
    ∀ (ds : List String) (s : ServiceState), TableInv s →
      TableInv (stopAllLoop s beh ds).1 := by
  intro ds
  induction ds with
  | nil => intro s h; exact h
  | cons d rest ih =>
    intro s h
    have h1 := tableInv_stopStreamDevice h beh d
    have h2 := ih _ h1
    simp only [stopAllLoop]
    rcases (stopStreamDevice s beh d).2 with _ | e
    · exact h2
    · exact h2

theorem tableInv_stopStreaming {s : ServiceState} (h : TableInv s)
    (beh : String → Option String) (device : Option String) :
    TableInv (stopStreaming s beh device).1 := by
  cases device with
  | none =>
    simp only [stopStreaming]
    split
    · exact h
    · exact tableInv_stopAllLoop beh _ s h
  | some d =>
    simp only [stopStreaming]
    split
    · exact h
    · have h1 := tableInv_setEntryState h d .stopping
      have h2 := tableInv_stopStreamDevice h1 beh d
      rcases (stopStreamDevice (setEntryState s d .stopping) beh d).2 with _ | e
      · exact h2
      · exact tableInv_setEntryState h2 d .error

theorem tableInv_restartStreaming {s : ServiceState} (h : TableInv s)
    (devices : List String) (beh : String → Option String)
    (encNew encOld : Option Int) (args : RestartArgs) (now : Int) :
    TableInv (restartStreaming s devices beh encNew encOld args now).1 := by
  simp only [restartStreaming]
  split
  · exact h
  · split
    · exact h
    · split
      · exact tableInv_startStreaming (tableInv_stopStreamDevice h beh args.device)
          devices encNew args.device _ _ _ _ _ now
      · split
        · exact tableInv_startStreaming
            (tableInv_startStreaming (tableInv_stopStreamDevice h beh args.device)
              devices encNew args.device _ _ _ _ _ now)
            devices encOld args.device _ _ _ _ _ now
        · exact tableInv_startStreaming
            (tableInv_startStreaming (tableInv_stopStreamDevice h beh args.device)
              devices encNew args.device _ _ _ _ _ now)
            devices encOld args.device _ _ _ _ _ now

theorem tableInv_handleSettingsUpdate {s : ServiceState} (h : TableInv s)
    (devices : List String) (beh : String → Option String) (enc : Option Int)
    (p : UpdateSettingsParams) (now : Int) :
    TableInv (handleSettingsUpdate s devices beh enc p now).1 := by
  simp only [handleSettingsUpdate]
  split
  · exact h
  · split
    · split
      · exact tableInv_stopStreaming h beh none
      · split
        · exact tableInv_startStreaming (tableInv_stopStreaming h beh none)
            devices enc _ _ _ _ _ _ now
        · exact tableInv_startStreaming (tableInv_stopStreaming h beh none)
            devices enc _ _ _ _ _ _ now
    · split
      · exact h
      · exact h

theorem tableInv_applyOp {s : ServiceState} (h : TableInv s) (op : SOp) :
    TableInv (applyOp s op) := by
  cases op with
  | startOp devices enc device name resolution fps raw groups now =>
    exact tableInv_startStreaming h devices enc device name resolution fps raw groups now
  | stopOp beh device => exact tableInv_stopStreaming h beh device
  | restartOp devices beh encNew encOld args now =>
    exact tableInv_restartStreaming h devices beh encNew encOld args now
  | settingsOp devices beh enc p now =>
    exact tableInv_handleSettingsUpdate h devices beh enc p now

theorem tableInv_runOps {init : ServiceState} (h : TableInv init) (ops : List SOp) :
    TableInv (runOps init ops) := by
  induction ops generalizing init with
  | nil => exact h
  | cons op rest ih => exact ih (tableInv_applyOp h op)

/-! ## State-document lemmas for stop and settings paths -/

theorem getField_setStreamingInactive_lastConfig (st : JVal) (x : Option String) :
    (setStreamingInactive st x).getField "last_config" = st.getField "last_config" := by
  cases x with
  | none => exact getField_setField_ne st (by decide) _
  | some d =>
    simp only [setStreamingInactive]
    split
    · exact getField_setField_ne st (by decide) _
    · rfl

theorem stopStreamDevice_lastConfig (s : ServiceState) (beh : String → Option String)
    (device : String) :
    (stopStreamDevice s beh device).1.doc.getField "last_config"
      = s.doc.getField "last_config" := by
  rcases stopStreamDevice_cases s beh device with hc | ⟨_, hd⟩
  · rw [hc]
  · rw [hd, getField_setStreamingInactive_lastConfig]

theorem stopAllLoop_lastConfig (beh : String → Option String) :
    ∀ (ds : List String) (s : ServiceState),
      (stopAllLoop s beh ds).1.doc.getField "last_config"
        = s.doc.getField "last_config" := by
  intro ds
  induction ds with
  | nil => intro s; rfl
  | cons d rest ih =>
    intro s
    simp only [stopAllLoop]
    split
    · rw [ih, stopStreamDevice_lastConfig]
    · rw [ih, stopStreamDevice_lastConfig]

/-- With every `encoder.stop()` returning cleanly, the stop-all loop over
the table's own key list deletes every row. -/
theorem stopAllLoop_clean_streams :
    ∀ (ds : List String) (s : ServiceState), keysA s.streams = ds →
      (stopAllLoop s (fun _ => none) ds).1.streams = [] := by
  intro ds
  induction ds with
  | nil =>
    intro s hk
    cases hs : s.streams with
    | nil => simp only [stopAllLoop]; exact hs
    | cons kv tail => rw [hs] at hk; simp [keysA] at hk
  | cons d rest ih =>
    rintro ⟨streams, doc⟩ hk
    cases streams with
    | nil => simp [keysA] at hk
    | cons kv tail =>
      obtain ⟨k₀, e₀⟩ := kv
      simp only [keysA, List.map_cons, List.cons.injEq] at hk
      obtain ⟨hk1, hk2⟩ := hk
      subst hk1
      have hstep : stopStreamDevice ⟨(k₀, e₀) :: tail, doc⟩ (fun _ => none) k₀ =
          (⟨tail, setStreamingInactive doc (some k₀)⟩, none) := by
        simp [stopStreamDevice, lookupA, eraseA]
      simp only [stopAllLoop, hstep]
      exact ih _ hk2

/-- No device is skipped by the stop-all loop: successes plus collected
errors account for every device. -/
theorem stopAllLoop_count (beh : String → Option String) :
    ∀ (ds : List String) (s : ServiceState),
      (stopAllLoop s beh ds).2.1 + (stopAllLoop s beh ds).2.2.length = ds.length := by
  intro ds
  induction ds with
  | nil => intro s; rfl
  | cons d rest ih =>
    intro s
    have hr := ih ((stopStreamDevice s beh d).1)
    simp only [stopAllLoop]
    split
    · simp only [List.length_cons]
      omega
    · simp only [List.length_cons]
      omega

/-- The latent mismatch inside `get_current_settings`: the all-streams
info dict has no `active` key, so the reported `streaming` flag is
`False` no matter what is persisted or live. -/
theorem getCurrentSettings_streaming_false (doc : JVal) :
    (getCurrentSettings doc).streaming = false := by
  have hcond : truthyOpt ((getStreamingInfo doc none).getField "active") = false := by
    simp only [getStreamingInfo, JVal.getField, lookupA,
      if_neg (by decide : ¬ ("streams" = "active")), truthyOpt]
  simp only [getCurrentSettings, hcond]
  simp

theorem cleanupPass_eq_filter (services : List (String × ExostreamServiceInfo)) (now : ℚ) :
    cleanupPass services now =
      (services.filter (fun kv => !decide (now - kv.2.lastSeen > DISCOVERY_TIMEOUT)),
       services.filter (fun kv => decide (now - kv.2.lastSeen > DISCOVERY_TIMEOUT))) := by
  induction services with
  | nil => rfl
  | cons kv rest ih =>
    simp only [cleanupPass, ih, List.filter_cons]
    by_cases h : now - kv.2.lastSeen > DISCOVERY_TIMEOUT
    · simp [h]
    · simp [h]

theorem setStreamingActive_lastConfig {st : JVal} (h : st.isObjB = true)
    (c : StreamConfig) (pid : Int) (raw : Bool) (now : Int) :
    (setStreamingActive st c pid raw now).getField "last_config"
      = some (lastConfigJson c raw) := by
  simp only [setStreamingActive]
  exact getField_setField_self (isObjB_setField h _ _) _ _

/-! ## Claim theorems -/

/-- C7: `StateManager._load` never raises — it is a total function of the
file content — and a missing file or a failed parse (`JSONDecodeError` or
any other read error) yields exactly the fresh default document: version
string `"0.3.0"`, `daemon.started_at`/`pid` null, an empty `streams` map
and the default `last_config`. -/
theorem C7_theorem :
    (∀ parse : String → Option JVal, loadState parse .missing = defaultState) ∧
    (∀ (parse : String → Option JVal) (s : String), parse s = none →
      loadState parse (.content s) = defaultState) ∧
    defaultState.getField "version" = some (.jstr "0.3.0") ∧
    defaultState.getField "daemon" = some (.jobj [("started_at", .jnull), ("pid", .jnull)]) ∧
    defaultState.getField "streams" = some (.jobj []) ∧
    defaultState.getField "last_config" = some (.jobj [
      ("device", .jstr "/dev/video0"), ("resolution", .jstr "1920x1080"),
      ("fps", .jnum 30), ("raw_input", .jbool false)]) := by
  refine ⟨fun parse => rfl, fun parse s h => ?_, rfl, rfl, rfl, rfl⟩
  simp [loadState, h]

/-- C7 witness: a concrete corrupt state file loads to the default
document. -/
theorem C7_witness :
    loadState (fun _ => none) (.content "garbage, not json") = defaultState :=
  C7_theorem.2.1 (fun _ => none) "garbage, not json" rfl

/-- C9: querying status for a device with no row in the stream table is
total (never raises), reads the state without mutating it, and returns
exactly the two-field dictionary `{"streaming": false, "device": device}`. -/
theorem C9_theorem (s : ServiceState) (now : Int) (device : String)
    (h : lookupA s.streams device = none) :
    getStatus s now (some device)
      = .jobj [("streaming", .jbool false), ("device", .jstr device)] := by
  simp [getStatus, h]

/-- C9 witness: concrete absent-device status query. -/
theorem C9_witness :
    getStatus initialService 0 (some "/dev/video0")
      = .jobj [("streaming", .jbool false), ("device", .jstr "/dev/video0")] :=
  C9_theorem initialService 0 "/dev/video0" rfl

/-- C8: one pass of the discovery sweep (run every 2 s) deletes exactly
the entries with `now - last_seen > DISCOVERY_TIMEOUT = 10` and emits a
`removed` callback for each (the second component); hence a stale entry
is gone from the kept table — and so from `get_services()` — at the first
sweep after its timeout elapses, while no entry with a fresh `last_seen`
is ever removed. -/
theorem C8_theorem :
    (∀ (services : List (String × ExostreamServiceInfo)) (now : ℚ),
      cleanupPass services now =
        (services.filter (fun kv => !decide (now - kv.2.lastSeen > DISCOVERY_TIMEOUT)),
         services.filter (fun kv => decide (now - kv.2.lastSeen > DISCOVERY_TIMEOUT)))) ∧
    (∀ (services : List (String × ExostreamServiceInfo)) (now : ℚ)
        (k : String) (sv : ExostreamServiceInfo),
      (k, sv) ∈ services → now - sv.lastSeen > DISCOVERY_TIMEOUT →
      (k, sv) ∈ (cleanupPass services now).2) ∧
    (∀ (services : List (String × ExostreamServiceInfo)) (now : ℚ)
        (sv : ExostreamServiceInfo),
      now - sv.lastSeen > DISCOVERY_TIMEOUT →
      sv ∉ getServices (cleanupPass services now).1) ∧
    (∀ (services : List (String × ExostreamServiceInfo)) (now : ℚ)
        (k : String) (sv : ExostreamServiceInfo),
      (k, sv) ∈ services → ¬ (now - sv.lastSeen > DISCOVERY_TIMEOUT) →
      (k, sv) ∈ (cleanupPass services now).1) := by
  refine ⟨cleanupPass_eq_filter, ?_, ?_, ?_⟩
  · intro services now k sv hmem hstale
    rw [cleanupPass_eq_filter]
    exact List.mem_filter.mpr ⟨hmem, by simpa using hstale⟩
  · intro services now sv hstale hmem
    rw [cleanupPass_eq_filter] at hmem
    simp only [getServices, List.mem_map] at hmem
    obtain ⟨kv, hkv, hsnd⟩ := hmem
    have := (List.mem_filter.mp hkv).2
    rw [hsnd] at this
    simp at this
    exact absurd hstale (by simpa using this)
  · intro services now k sv hmem hfresh
    rw [cleanupPass_eq_filter]
    exact List.mem_filter.mpr ⟨hmem, by simpa using hfresh⟩

/-- C8 witness: a peer last seen at t = 0 is removed (with callback) by
the sweep at t = 11 and absent from `get_services`; a peer last seen at
t = 5 survives that same sweep. -/
theorem C8_witness :
    (("10.0.0.5:9023",
        ({ name := "a", hostname := "a", host := "10.0.0.5", port := 9023,
           version := "0.4.0", lastSeen := 0 } : ExostreamServiceInfo)) ∈
      (cleanupPass [("10.0.0.5:9023",
        { name := "a", hostname := "a", host := "10.0.0.5", port := 9023,
          version := "0.4.0", lastSeen := 0 })] 11).2) ∧
    (({ name := "a", hostname := "a", host := "10.0.0.5", port := 9023,
        version := "0.4.0", lastSeen := 0 } : ExostreamServiceInfo) ∉
      getServices (cleanupPass [("10.0.0.5:9023",
        { name := "a", hostname := "a", host := "10.0.0.5", port := 9023,
          version := "0.4.0", lastSeen := 0 })] 11).1) ∧
    (("10.0.0.6:9023",
        ({ name := "b", hostname := "b", host := "10.0.0.6", port := 9023,
           version := "0.4.0", lastSeen := 5 } : ExostreamServiceInfo)) ∈
      (cleanupPass [("10.0.0.6:9023",
        { name := "b", hostname := "b", host := "10.0.0.6", port := 9023,
          version := "0.4.0", lastSeen := 5 })] 11).1) := by
  refine ⟨?_, ?_, ?_⟩
  · exact C8_theorem.2.1 _ 11 _ _ (by simp) (by norm_num [DISCOVERY_TIMEOUT])
  · exact C8_theorem.2.2.1 _ 11 _ (by norm_num [DISCOVERY_TIMEOUT])
  · exact C8_theorem.2.2.2 _ 11 _ _ (by simp) (by norm_num [DISCOVERY_TIMEOUT])

/-- A successful start pins down the oracle outcomes and the persisted
document: the config was parsable, the child was alive, and the document
went through `set_streaming_active` with exactly that config. -/
theorem startStreaming_ok (s : ServiceState) (devices : List String)
    (enc : Option Int) (device name resolution : String) (fps : Int) (raw : Bool)
    (groups : Option String) (now : Int) (v : JVal)
    (hok : (startStreaming s devices enc device name resolution fps raw groups now).2
      = .ok v) :
    ∃ vc pid, VideoConfig.fromResolutionString resolution fps = some vc ∧
      enc = some pid ∧
      (startStreaming s devices enc device name resolution fps raw groups now).1.doc
        = setStreamingActive s.doc
            { video := vc, ndi := { streamName := name, groups := groups },
              device := device } pid raw now := by
  by_cases h1 : (lookupA s.streams device).isSome = true
  · simp [startStreaming, h1] at hok
  · by_cases h2 : 3 ≤ s.streams.length
    · simp [startStreaming, h1, h2] at hok
    · by_cases h3 : devices.isEmpty = true
      · simp [startStreaming, h1, h2, h3] at hok
      · by_cases h4 : device ∈ devices
        · rcases hv : VideoConfig.fromResolutionString resolution fps with _ | vc
          · simp [startStreaming, h1, h2, h3, h4, hv] at hok
          · rcases enc with _ | pid
            · simp [startStreaming, h1, h2, h3, h4, hv] at hok
            · exact ⟨vc, pid, rfl, rfl, by simp [startStreaming, h1, h2, h3, h4, hv]⟩
        · simp [startStreaming, h1, h2, h3, h4] at hok

/-- C1 counterexample: scenario S3 at the wire level — with three
streams in the table and three probed devices, the fourth `stream.start`
request is answered with code `-32603` (InternalError), not the claimed
`-32000`: the handler re-wraps `StreamAlreadyRunningError` as a bare
`StreamingError` and the router maps every handler exception to
`INTERNAL_ERROR`. -/
theorem C1_counterexample :
    ((routeRequest (startHandlers fullState
        ["/dev/video0", "/dev/video1", "/dev/video2"] (some 104) 0) req4).error.map
        RPCErrorObj.code = some (-32603)) ∧
    (-32603 : Int) ≠ -32000 := by
  exact ⟨rfl, by decide⟩

/-- C1 (amended): every `stream.start` handler exception — the known
domain errors included, since `_handle_stream_start` erases their type
and `_route_request` has no domain-error mapping — produces the response
`{id, error: {code: -32603, message: str(e)}}`; the specific codes
-32000…-32005 are defined in the protocol but never emitted by routing. -/
theorem C1_amended_theorem (s : ServiceState) (devices : List String)
    (enc : Option Int) (now : Int) (params : JVal) (idv : Option Int) (e : String)
    (h : (handleStreamStart s devices enc params now).2 = .error e) :
    routeRequest (startHandlers s devices enc now)
      { method := "stream.start", params := params, id := idv }
      = { id := idv, result := none,
          error := some { code := -32603, message := e } } := by
  simp [routeRequest, startHandlers, h]

/-- C1 witness: the amended theorem applied to the concrete S3 fourth
start. -/
theorem C1_witness :
    routeRequest (startHandlers fullState
        ["/dev/video0", "/dev/video1", "/dev/video2"] (some 104) 0) req4
      = { id := some 1, result := none,
          error := some
            { code := -32603,
              message := "Stream already running: Maximum number of streams (3) already running. Stop a stream before starting a new one." } } :=
  C1_amended_theorem fullState ["/dev/video0", "/dev/video1", "/dev/video2"]
    (some 104) 0 req4.params (some 1) _ rfl

/-- C2 counterexample: scenario S4 — `stream.start` with `fps = 999` does
*not* fail with `InvalidConfiguration`: the start path range-checks
nothing (its only validation is that the resolution parses as `WxH`), so
the encoder is launched, a stream-table row is created and a persisted
entry is written. -/
theorem C2_counterexample :
    ((startStreaming initialService ["/dev/video0"] (some 100) "/dev/video0" "x"
        "1920x1080" 999 false none 0).2
      = .ok (startResultJson "x" "/dev/video0" "1920x1080" 999 100)) ∧
    ((lookupA (startStreaming initialService ["/dev/video0"] (some 100) "/dev/video0" "x"
        "1920x1080" 999 false none 0).1.streams "/dev/video0").isSome = true) ∧
    ((((startStreaming initialService ["/dev/video0"] (some 100) "/dev/video0" "x"
        "1920x1080" 999 false none 0).1.doc.getField "streams").getD
          (.jobj [])).getField "/dev/video0").isSome = true := by
  exact ⟨rfl, rfl, rfl⟩

/-- C2 (amended): the supervisor start path validates only that the
resolution splits on `x` into two integers; any `fps` whatsoever (and
any dimensions, however large or negative) is accepted, launching the
encoder and mutating both the table and the persisted state.  The
claimed range checks (`fps` 1…120, dimensions positive and ≤ 4096) live
only in `SettingsManager.validate_settings_update` (and, without the
4096 cap, in the restart pre-validation), not on the start path. -/
theorem C2_amended_theorem (s : ServiceState) (devices : List String)
    (pid : Int) (device name resolution : String) (fps : Int) (raw : Bool)
    (groups : Option String) (now : Int) (wh : Int × Int)
    (h1 : lookupA s.streams device = none) (h2 : s.streams.length < 3)
    (h4 : device ∈ devices) (h5 : parseResolution resolution = some wh) :
    startStreaming s devices (some pid) device name resolution fps raw groups now
      = ({ streams := insertA s.streams device
            { config :=
                { video := { width := wh.1, height := wh.2, fps := fps },
                  ndi := { streamName := name, groups := groups },
                  device := device },
              rawInput := raw, state := .running, errors := [], pid := some pid },
           doc := setStreamingActive s.doc
             { video := { width := wh.1, height := wh.2, fps := fps },
               ndi := { streamName := name, groups := groups },
               device := device }
             pid raw now },
         .ok (startResultJson name device resolution fps pid)) ∧
    validateSettingsUpdate devices { fps := some 999 }
      = some "FPS must be between 1 and 120" := by
  constructor
  · have h3 : devices.isEmpty = false := by
      cases devices
      · cases h4
      · rfl
    have h4c : devices.contains device = true := by simpa using h4
    have hv : VideoConfig.fromResolutionString resolution fps
        = some { width := wh.1, height := wh.2, fps := fps } := by
      simp [VideoConfig.fromResolutionString, h5]
    have h2n : ¬ 3 ≤ s.streams.length := by omega
    simp [startStreaming, h1, h2n, h3, h4c, hv, h4]
  · simp [validateSettingsUpdate]

/-- C2 witness: the amended theorem at the concrete S4 input
(`fps = 999`). -/
theorem C2_witness :
    (startStreaming initialService ["/dev/video0"] (some 100) "/dev/video0" "Cam"
        "1920x1080" 999 false none 0).2
      = .ok (startResultJson "Cam" "/dev/video0" "1920x1080" 999 100) := by
  have h := C2_amended_theorem initialService ["/dev/video0"] 100 "/dev/video0" "Cam"
    "1920x1080" 999 false none 0 (1920, 1080) rfl (by decide) (by decide) rfl
  rw [h.1]

/-- C4: evaluation at the failing input.  A running stream at
`1920x1080@30`; `restart_streaming` with `fps = 60` where the new start
fails at the grace check and the rollback start succeeds.  The caller
receives the composite "Restart failed and rollback failed. Manual
intervention required…" error — even though a status query shows the
stream `Running` with the old parameters, i.e. the rollback in fact
succeeded.  The cause is the slip in `service.py`: the success-path
`raise StreamingError("Restart failed, rolled back …")` sits inside the
`try` whose `except Exception as rollback_error` catches it. -/
theorem C4_bug_evaluation :
    ((restartStreaming startedState ["/dev/video0"] (fun _ => none) none (some 101)
        { device := "/dev/video0", fps := some 60 } 2000).2
      = .error (.streaming
          "Restart failed and rollback failed. Manual intervention required. Original error: FFmpeg failed to start, Rollback error: Restart failed, rolled back to previous settings. Error: FFmpeg failed to start")) ∧
    ((lookupA (restartStreaming startedState ["/dev/video0"] (fun _ => none) none
        (some 101) { device := "/dev/video0", fps := some 60 } 2000).1.streams
        "/dev/video0").map
        (fun en => (en.state, en.config.video.fps, en.config.video.resolution))
      = some (.running, 30, "1920x1080")) := by
  exact ⟨rfl, rfl⟩

/-- C5 counterexample: a `stream.stop` request that *does* carry a
`device` parameter nonetheless stops every active stream (two rows →
both gone) and returns the aggregate `{status: "stopped", count: 2}`,
not `{status: "stopped", device}`: the handler never reads its params. -/
theorem C5_counterexample :
    ((handleStreamStop twoState (fun _ => none)
        (.jobj [("device", .jstr "/dev/video0")])).2
      = .ok (.jobj [("status", .jstr "stopped"), ("count", .jnum 2)])) ∧
    (handleStreamStop twoState (fun _ => none)
        (.jobj [("device", .jstr "/dev/video0")])).1.streams = [] := by
  exact ⟨rfl, rfl⟩

/-- C5 (amended): the RPC `stream.stop` handler ignores the request
parameters entirely and always performs the stop-all form, whose loop
accounts for every device (successes plus collected errors, no abort);
the per-device form — returning `{status: "stopped", device}` — exists
only at the service layer (`stop_streaming(device)`), unreachable over
RPC. -/
theorem C5_amended_theorem :
    (∀ (s : ServiceState) (beh : String → Option String) (p q : JVal),
      handleStreamStop s beh p = handleStreamStop s beh q) ∧
    (∀ (s : ServiceState) (beh : String → Option String) (ds : List String),
      (stopAllLoop s beh ds).2.1 + (stopAllLoop s beh ds).2.2.length = ds.length) ∧
    (∀ (s : ServiceState) (beh : String → Option String) (d : String),
      (lookupA s.streams d).isSome = true → beh d = none →
      (stopStreaming s beh (some d)).2
        = .ok (.jobj [("status", .jstr "stopped"), ("device", .jstr d)])) := by
  refine ⟨fun s beh p q => rfl, fun s beh ds => stopAllLoop_count beh ds s, ?_⟩
  intro s beh d h hb
  rcases hx : lookupA s.streams d with _ | e0
  · rw [hx] at h; simp at h
  · have hset : lookupA (setEntryState s d .stopping).streams d
        = some { e0 with state := .stopping } := by
      rw [lookupA_setEntryState, hx]
      simp
    simp [stopStreaming, hx, stopStreamDevice, hset, hb]

/-- C5 witness: the amended theorem at a concrete two-stream state. -/
theorem C5_witness :
    (handleStreamStop twoState (fun _ => none) (.jobj [])
      = handleStreamStop twoState (fun _ => none)
          (.jobj [("device", .jstr "/dev/video0")])) ∧
    ((stopAllLoop twoState (fun _ => none) ["/dev/video0", "/dev/video1"]).2.1 +
      (stopAllLoop twoState (fun _ => none) ["/dev/video0", "/dev/video1"]).2.2.length
        = 2) ∧
    (stopStreaming twoState (fun _ => none) (some "/dev/video0")).2
      = .ok (.jobj [("status", .jstr "stopped"), ("device", .jstr "/dev/video0")]) :=
  ⟨C5_amended_theorem.1 twoState (fun _ => none) (.jobj [])
      (.jobj [("device", .jstr "/dev/video0")]),
   C5_amended_theorem.2.1 twoState (fun _ => none) ["/dev/video0", "/dev/video1"],
   C5_amended_theorem.2.2 twoState (fun _ => none) "/dev/video0" rfl rfl⟩

/-- C3 counterexample: scenario S5 — a stream running at `1920x1080@30`;
`settings.update{fps: 60, restart_if_streaming: true}` with an encoder
that refuses the new parameters.  The error is surfaced, but afterwards
the table is empty and `settings.get` reports `fps: 30` with
`streaming: false` — the stream is *not* rolled back and *not* running,
contradicting the claimed invocation of the supervisor restart. -/
theorem C3_counterexample :
    ((handleSettingsUpdate startedState ["/dev/video0"] (fun _ => none) none
        { fps := some 60 } 2000).2
      = .error "Failed to update settings: FFmpeg failed to start") ∧
    (handleSettingsUpdate startedState ["/dev/video0"] (fun _ => none) none
        { fps := some 60 } 2000).1.streams = [] ∧
    getCurrentSettings (handleSettingsUpdate startedState ["/dev/video0"]
        (fun _ => none) none { fps := some 60 } 2000).1.doc
      = { device := "/dev/video0", name := none, resolution := "1920x1080",
          fps := 30, rawInput := false, groups := none, streaming := false } := by
  exact ⟨rfl, rfl, rfl⟩

/-- C3 (amended): `settings.update` while streaming with
`restart_if_streaming` stops **all** streams and then attempts one fresh
start with the merged parameters — it never invokes the supervisor's
`restart_streaming`, so there is no rollback.  When the new start fails,
the error surfaces with the `Failed to update settings:` prefix, the
stream table is left empty, `last_config` is untouched (so `settings.get`
still reports the old parameters, e.g. fps 30) and its `streaming` flag
is `false`. -/
theorem C3_amended_theorem (s : ServiceState) (devices : List String)
    (p : UpdateSettingsParams) (now : Int)
    (hne : s.streams.isEmpty = false)
    (hval : validateSettingsUpdate devices p = none)
    (hres : p.restartIfStreaming = true) :
    (∃ m, (handleSettingsUpdate s devices (fun _ => none) none p now).2
        = .error ("Failed to update settings: " ++ m)) ∧
    (handleSettingsUpdate s devices (fun _ => none) none p now).1.streams = [] ∧
    (getCurrentSettings
        (handleSettingsUpdate s devices (fun _ => none) none p now).1.doc).streaming
      = false ∧
    (handleSettingsUpdate s devices (fun _ => none) none p now).1.doc.getField
        "last_config"
      = s.doc.getField "last_config" := by
  have hwas : isStreaming s none = true := by simp [isStreaming, hne]
  obtain ⟨e, he⟩ := startStreaming_encNone (stopStreaming s (fun _ => none) none).1
    devices (mergeSettings (getCurrentSettings s.doc) p).device
    (nameOrDefault (mergeSettings (getCurrentSettings s.doc) p).name)
    (mergeSettings (getCurrentSettings s.doc) p).resolution
    (mergeSettings (getCurrentSettings s.doc) p).fps
    (mergeSettings (getCurrentSettings s.doc) p).rawInput
    (mergeSettings (getCurrentSettings s.doc) p).groups now
  have hok2 : ∃ w, (stopStreaming s (fun _ => none) none).2 = Except.ok w := by
    simp only [stopStreaming, hne]
    exact ⟨_, rfl⟩
  obtain ⟨w, hw⟩ := hok2
  have hmain : handleSettingsUpdate s devices (fun _ => none) none p now
      = ((stopStreaming s (fun _ => none) none).1,
         .error ("Failed to update settings: " ++ e.msg)) := by
    simp only [handleSettingsUpdate, hval, hwas, hres, Bool.and_self, if_true]
    rw [hw]
    simp only []
    rw [he]
  have hfst : (stopStreaming s (fun _ => none) none).1
      = (stopAllLoop s (fun _ => none) (keysA s.streams)).1 := by
    simp [stopStreaming, hne]
  refine ⟨⟨e.msg, by rw [hmain]⟩, ?_, ?_, ?_⟩
  · rw [hmain]
    simp only [hfst]
    exact stopAllLoop_clean_streams (keysA s.streams) s rfl
  · rw [hmain]
    exact getCurrentSettings_streaming_false _
  · rw [hmain]
    simp only [hfst]
    exact stopAllLoop_lastConfig (fun _ => none) (keysA s.streams) s

/-- C3 witness: the amended theorem at the concrete S5 state. -/
theorem C3_witness :
    (∃ m, (handleSettingsUpdate startedState ["/dev/video0"] (fun _ => none) none
        { fps := some 60 } 2000).2
      = .error ("Failed to update settings: " ++ m)) ∧
    (handleSettingsUpdate startedState ["/dev/video0"] (fun _ => none) none
        { fps := some 60 } 2000).1.streams = [] ∧
    (getCurrentSettings (handleSettingsUpdate startedState ["/dev/video0"]
        (fun _ => none) none { fps := some 60 } 2000).1.doc).streaming = false ∧
    (handleSettingsUpdate startedState ["/dev/video0"] (fun _ => none) none
        { fps := some 60 } 2000).1.doc.getField "last_config"
      = startedState.doc.getField "last_config" :=
  C3_amended_theorem startedState ["/dev/video0"] { fps := some 60 } 2000 rfl rfl rfl

/-- C6: at every point in any sequence of supervisor operations (starts,
stops, restarts, settings updates, under any oracle outcomes) the stream
table holds at most `MAX_STREAMS = 3` rows with unique device-path keys;
and `start_streaming` rejects with `StreamAlreadyRunning` before any
mutation both when the device already has a row and when the table is
full. -/
theorem C6_theorem (init : ServiceState) (ops : List SOp) (hinit : TableInv init) :
    TableInv (runOps init ops) ∧
    (∀ (s : ServiceState) (devices : List String) (enc : Option Int)
        (device name resolution : String) (fps : Int) (raw : Bool)
        (groups : Option String) (now : Int),
      ((lookupA s.streams device).isSome = true ∨ 3 ≤ s.streams.length) →
      ∃ m, startStreaming s devices enc device name resolution fps raw groups now
        = (s, .error (.alreadyRunning m))) := by
  refine ⟨tableInv_runOps hinit ops, ?_⟩
  intro s devices enc device name resolution fps raw groups now hcase
  by_cases hs : (lookupA s.streams device).isSome = true
  · exact ⟨"Device " ++ device ++ " is already streaming",
      by simp [startStreaming, hs]⟩
  · rcases hcase with hc | hlen
    · exact absurd hc hs
    · refine ⟨"Maximum number of streams (3) already running. Stop a stream before starting a new one.", ?_⟩
      simp [startStreaming, hs, hlen]

/-- C6 witness: the invariant holds after a concrete start-then-stop run
from boot, and the concrete full table rejects a fourth device before any
mutation. -/
theorem C6_witness :
    TableInv (runOps initialService
      [SOp.startOp ["/dev/video0"] (some 100) "/dev/video0" "Cam" "1920x1080" 30
        false none 0,
       SOp.stopOp (fun _ => none) none]) ∧
    ∃ m, startStreaming fullState ["/dev/video0"] (some 1) "/dev/video3" "x"
        "640x480" 30 false none 0
      = (fullState, .error (.alreadyRunning m)) := by
  have h := C6_theorem initialService
    [SOp.startOp ["/dev/video0"] (some 100) "/dev/video0" "Cam" "1920x1080" 30
      false none 0,
     SOp.stopOp (fun _ => none) none] ⟨by decide, by decide⟩
  exact ⟨h.1, h.2 fullState ["/dev/video0"] (some 1) "/dev/video3" "x" "640x480"
    30 false none 0 (Or.inr (by decide))⟩

/-- C10: `set_streaming_active` writes exactly the `streams[device]`
snapshot and the `last_config` record — every other top-level key and
every other device's snapshot is untouched — and every successful start
(the rollback start inside `restart_streaming` goes through the same
`start_streaming`) overwrites the persisted `last_config` with that
stream's device, resolution, fps and raw_input, so `last_config` always
reflects the most recently started stream. -/
theorem C10_theorem :
    (∀ (st : JVal) (c : StreamConfig) (pid : Int) (raw : Bool) (now : Int)
        (k : String), k ≠ "streams" → k ≠ "last_config" →
      (setStreamingActive st c pid raw now).getField k = st.getField k) ∧
    (∀ (st : JVal), st.isObjB = true →
      ∀ (c : StreamConfig) (pid : Int) (raw : Bool) (now : Int),
      (setStreamingActive st c pid raw now).getField "last_config"
        = some (lastConfigJson c raw)) ∧
    (∀ (st : JVal), st.isObjB = true →
      ∀ (c : StreamConfig) (pid : Int) (raw : Bool) (now : Int),
      (setStreamingActive st c pid raw now).getField "streams"
        = some (((st.getField "streams").getD (.jobj [])).setField c.device
            (streamSnapshotJson c raw now pid))) ∧
    (∀ (X v : JVal) (k d : String), d ≠ k →
      (X.setField k v).getField d = X.getField d) ∧
    (∀ (s : ServiceState) (devices : List String) (enc : Option Int)
        (device name resolution : String) (fps : Int) (raw : Bool)
        (groups : Option String) (now : Int) (v : JVal),
      s.doc.isObjB = true →
      (startStreaming s devices enc device name resolution fps raw groups now).2
        = .ok v →
      ∃ vc, VideoConfig.fromResolutionString resolution fps = some vc ∧
        (startStreaming s devices enc device name resolution fps raw groups
            now).1.doc.getField "last_config"
          = some (lastConfigJson
              { video := vc, ndi := { streamName := name, groups := groups },
                device := device } raw)) := by
  refine ⟨?_, ?_, ?_, ?_, ?_⟩
  · intro st c pid raw now k hks hkl
    simp only [setStreamingActive]
    rw [getField_setField_ne _ hkl, getField_setField_ne _ hks]
  · intro st h c pid raw now
    exact setStreamingActive_lastConfig h c pid raw now
  · intro st h c pid raw now
    simp only [setStreamingActive]
    rw [getField_setField_ne _ (by decide : ("streams" : String) ≠ "last_config")]
    exact getField_setField_self h _ _
  · intro X v k d hdk
    exact getField_setField_ne X hdk v
  · intro s devices enc device name resolution fps raw groups now v hobj hok
    obtain ⟨vc, pid, hv, henc, hdoc⟩ :=
      startStreaming_ok s devices enc device name resolution fps raw groups now v hok
    refine ⟨vc, hv, ?_⟩
    rw [hdoc]
    exact setStreamingActive_lastConfig hobj _ _ _ _

/-- C10 witness: the frame property and the last-config overwrite at the
concrete boot-time start (`startedState`). -/
theorem C10_witness :
    ((setStreamingActive defaultState (sampleConfig "/dev/video0") 100 false 1000).getField
        "version" = defaultState.getField "version") ∧
    ((setStreamingActive defaultState (sampleConfig "/dev/video0") 100 false 1000).getField
        "last_config" = some (lastConfigJson (sampleConfig "/dev/video0") false)) ∧
    (∃ vc, VideoConfig.fromResolutionString "1920x1080" 30 = some vc ∧
      (startStreaming initialService ["/dev/video0"] (some 100) "/dev/video0" "Cam"
          "1920x1080" 30 false none 1000).1.doc.getField "last_config"
        = some (lastConfigJson
            { video := vc, ndi := { streamName := "Cam", groups := none },
              device := "/dev/video0" } false)) :=
  ⟨C10_theorem.1 defaultState (sampleConfig "/dev/video0") 100 false 1000 "version"
      (by decide) (by decide),
   C10_theorem.2.1 defaultState rfl (sampleConfig "/dev/video0") 100 false 1000,
   C10_theorem.2.2.2.2 initialService ["/dev/video0"] (some 100) "/dev/video0" "Cam"
      "1920x1080" 30 false none 1000 (startResultJson "Cam" "/dev/video0" "1920x1080" 30 100)
      rfl rfl⟩

end Exostream
